import Mathlib

/-!
Shallow embedding of the `viem-inpage` provider adapters.

The repository exposes two EIP-1193 provider classes:

* `Eip1193Provider` (client-backed): wraps a viem client exposing
  `chain?.id`, `account?.address` and `request`.  Its `request` consults a
  custom-handler table first, then a fixed dispatch table for the five
  standard methods, and otherwise forwards to the wrapped client.
* `InpageProvider` (portal-backed): forwards every `request` over a portal
  channel named `eth_request`, updates cached state for
  `eth_requestAccounts` / `eth_chainId`, and reacts to inbound push events
  (`accountsChanged`, `chainChanged`, `connect`, `disconnect`).

Both classes share an identical event-emitter surface backed by a
`Map<string, Set<listener>>`.

JavaScript values appearing in the adapter (method params, RPC results,
JSON-RPC ids) are modelled by the inductive type `Value`; rejected promises
and thrown errors are modelled by `Except Err`; the asynchronous methods are
modelled as pure state-passing functions, which is faithful because the
source performs all state mutation synchronously after each awaited result.
-/

namespace ViemInpage

/-- Untyped JavaScript values crossing the provider boundary. -/
inductive Value where
  | str (s : String)
  | num (n : Int)
  | arr (xs : List Value)
  | nullV

/-- A thrown/rejected JavaScript `Error`: the adapter only ever reads
`.message` from it. -/
structure Err where
  message : String
deriving DecidableEq

/-- JS `Number.prototype.toString(16)` for a natural number: lowercase hex
digits, no prefix. -/
def jsHexDigits (n : Nat) : String := String.mk (Nat.toDigits 16 n)

/-- Hex digit value, accepting both cases — as JS `parseInt(·, 16)` does. -/
def hexDigitVal (c : Char) : Option Nat :=
  if '0' ≤ c ∧ c ≤ '9' then some (c.toNat - '0'.toNat)
  else if 'a' ≤ c ∧ c ≤ 'f' then some (c.toNat - 'a'.toNat + 10)
  else if 'A' ≤ c ∧ c ≤ 'F' then some (c.toNat - 'A'.toNat + 10)
  else none

/-- Accumulate leading hex digits, stopping at the first non-digit —
JS `parseInt` ignores everything after the first invalid character. -/
def hexAccum : List Char → Nat → Nat
  | [], acc => acc
  | c :: rest, acc =>
    match hexDigitVal c with
    | some d => hexAccum rest (acc * 16 + d)
    | none => acc

/-- Whitespace skipped by JS `parseInt` before the number. -/
def jsSpace (c : Char) : Bool :=
  c = ' ' || c = '\t' || c = '\n' || c = '\r'

/-- JS `parseInt(s, 16)` on ideal integers: skip whitespace, optional sign,
optional `0x`/`0X`, then the longest hex-digit run; `none` models `NaN`
(no digit found). -/
def jsParseIntHex (s : String) : Option Int :=
  let cs0 := s.data.dropWhile jsSpace
  let signed : Int × List Char :=
    match cs0 with
    | '-' :: rest => (-1, rest)
    | '+' :: rest => (1, rest)
    | _ => (1, cs0)
  let body : List Char :=
    match signed.2 with
    | '0' :: 'x' :: rest => rest
    | '0' :: 'X' :: rest => rest
    | _ => signed.2
  match body with
  | [] => none
  | c :: _ =>
    match hexDigitVal c with
    | some _ => some (signed.1 * (hexAccum body 0 : Int))
    | none => none

/-- JS `parseInt(s, 16).toString()`: decimal rendering, `"NaN"` when no
digits were parsed. -/
def jsParseIntHexToString (s : String) : String :=
  match jsParseIntHex s with
  | some n => toString n
  | none => "NaN"

/-- The mutable public/private fields of either provider class that the
adapter ever writes or exposes. -/
structure ProviderState where
  chainId : Option String
  connected : Bool
  isRainbow : Bool
  isReady : Bool
  isMetaMask : Bool
  networkVersion : String
  selectedAddress : Option Value
  isConnectedPriv : Bool

/-- Field initializers of both classes (with default options
`isRainbow = isMetaMask = true`). -/
def initState : ProviderState :=
  { chainId := none
    connected := false
    isRainbow := true
    isReady := true
    isMetaMask := true
    networkVersion := "1"
    selectedAddress := none
    isConnectedPriv := false }

/-- The `isConnected()` method of both classes: returns the private
`_isConnected` flag. -/
def ProviderState.isConnected (s : ProviderState) : Bool := s.isConnectedPriv

/-- The viem-client collaborator of `Eip1193Provider`: `chain?.id`,
`account?.address`, and a `request` that resolves or rejects. -/
structure Client where
  chain : Option Nat
  account : Option String
  request : String → List Value → Except Err Value

/-- The custom-handler table (`options?.custom`): method name to async
handler; absent methods map to `none`. -/
def Handlers := String → Option (List Value → Except Err Value)

/-- The empty custom-handler table (no `options.custom` supplied). -/
def noCustom : Handlers := fun _ => none

namespace Eip1193

/-- `Eip1193Provider.request`, returning the resolved/rejected value
together with the provider state after the call.  Mirrors the source:
custom handlers first; then the five-way switch (`eth_chainId` uses JS
truthiness of `chain?.id`, so chain id `0` falls back to `"0x1"`, while
`net_version` uses `??` and renders `0` as `"0"`); default forwards to the
wrapped client's `request` with `params` defaulted to `[]`. -/
def request (client : Client) (custom : Handlers) (s : ProviderState)
    (method : String) (params? : Option (List Value)) :
    Except Err Value × ProviderState :=
  let params := params?.getD []
  match custom method with
  | some h => (h params, s)
  | none =>
    if method = "eth_chainId" then
      (.ok (.str (match client.chain with
        | some id => if id = 0 then "0x1" else "0x" ++ jsHexDigits id
        | none => "0x1")), s)
    else if method = "eth_accounts" then
      (.ok (.arr (match client.account with
        | some a => [.str a]
        | none => [])), s)
    else if method = "eth_coinbase" then
      (.ok (match client.account with
        | some a => .str a
        | none => .nullV), s)
    else if method = "eth_requestAccounts" then
      match client.account with
      | some a =>
        (.ok (.arr [.str a]),
         { s with isConnectedPriv := true, connected := true,
                  selectedAddress := some (.str a) })
      | none => (.ok (.arr []), s)
    else if method = "net_version" then
      (.ok (.str (match client.chain with
        | some id => toString id
        | none => "1")), s)
    else
      (client.request method params, s)

/-- `Eip1193Provider.enable`: calls `request({method: "eth_requestAccounts"})`
and returns its result. -/
def enable (client : Client) (custom : Handlers) (s : ProviderState) :
    Except Err Value × ProviderState :=
  request client custom s "eth_requestAccounts" none

end Eip1193

/-- A JSON-RPC request as accepted by `sendAsync`: `id` is an optional
number-or-string, `params` an optional array. -/
structure JsonRpcRequestV where
  id : Option Value
  method : String
  params : Option (List Value)

/-- A JSON-RPC error record `{code, message}`. -/
structure JsonRpcErrorV where
  code : Int
  message : String

/-- A JSON-RPC response record as built by `sendAsync`: exactly one of
`result` / `error` is populated. -/
structure JsonRpcResponseV where
  id : Value
  jsonrpc : String
  result : Option Value
  error : Option JsonRpcErrorV

/-- One invocation of the node-style callback passed to `sendAsync`:
first argument (`null` or the caught error) and the response record. -/
def CallbackCall := Option Err × JsonRpcResponseV

/-- `Eip1193Provider.sendAsync`: awaits `request`, then invokes the callback
once — `(null, {id, jsonrpc, result})` on success, or
`(error, {id, jsonrpc, error: {code: -32000, message}})` on failure.  The
try/catch makes it total: the model returns the single callback invocation
plus the post state instead of ever throwing. -/
def Eip1193.sendAsync (client : Client) (custom : Handlers)
    (s : ProviderState) (payload : JsonRpcRequestV) :
    CallbackCall × ProviderState :=
  match Eip1193.request client custom s payload.method payload.params with
  | (.ok result, s') =>
    ((none,
      { id := payload.id.getD (.num 1), jsonrpc := "2.0",
        result := some result, error := none }), s')
  | (.error e, s') =>
    ((some e,
      { id := payload.id.getD (.num 1), jsonrpc := "2.0",
        result := none,
        error := some { code := -32000, message := e.message } }), s')

/-- The portal collaborator of `InpageProvider`, restricted to the one
channel the adapter uses: `client.request("eth_request", method, params)`.
`params` is passed through without defaulting (the source destructures
without a default), hence the `Option`. -/
def Portal := String → Option (List Value) → Except Err Value

namespace Inpage

/-- `InpageProvider.request`: forwards `(method, params)` over the
`eth_request` channel, then updates cached state — `eth_requestAccounts`
with an array result sets `selectedAddress` to `result[0]` and both
connected flags; `eth_chainId` with a string result sets `chainId` and
re-derives `networkVersion` via `parseInt(result, 16).toString()`. -/
def request (portal : Portal) (s : ProviderState)
    (method : String) (params? : Option (List Value)) :
    Except Err Value × ProviderState :=
  match portal method params? with
  | .error e => (.error e, s)
  | .ok result =>
    if method = "eth_requestAccounts" then
      match result with
      | .arr xs =>
        (.ok result,
         { s with selectedAddress := xs.head?, isConnectedPriv := true,
                  connected := true })
      | _ => (.ok result, s)
    else if method = "eth_chainId" then
      match result with
      | .str c =>
        (.ok result,
         { s with chainId := some c,
                  networkVersion := jsParseIntHexToString c })
      | _ => (.ok result, s)
    else
      (.ok result, s)

/-- `InpageProvider.enable`: calls
`request({method: "eth_requestAccounts"})` and returns its result. -/
def enable (portal : Portal) (s : ProviderState) :
    Except Err Value × ProviderState :=
  request portal s "eth_requestAccounts" none

/-- `InpageProvider.sendAsync`: identical try/catch shape to the
client-backed variant. -/
def sendAsync (portal : Portal) (s : ProviderState)
    (payload : JsonRpcRequestV) : CallbackCall × ProviderState :=
  match request portal s payload.method payload.params with
  | (.ok result, s') =>
    ((none,
      { id := payload.id.getD (.num 1), jsonrpc := "2.0",
        result := some result, error := none }), s')
  | (.error e, s') =>
    ((some e,
      { id := payload.id.getD (.num 1), jsonrpc := "2.0",
        result := none,
        error := some { code := -32000, message := e.message } }), s')

/-- The inbound `disconnect` push handler registered in
`setupEventListeners`: clears `selectedAddress` and the private
`_isConnected` flag, then fires `_emit("accountsChanged", [])` and
`_emit("disconnect", [])`.  Each `_emit(event, ...args)` call is recorded
as `(event, args)`; note the source passes the literal `[]` as an argument
to both emissions. -/
def disconnectPush (s : ProviderState) :
    ProviderState × List (String × List Value) :=
  ({ s with selectedAddress := none, isConnectedPriv := false },
   [("accountsChanged", [.arr []]), ("disconnect", [.arr []])])

end Inpage

/-! ### The event-emitter surface

`Eip1193Provider` and `InpageProvider` carry textually identical
event-emitter code backed by `_listeners : Map<string, Set<listener>>`.
Listeners are JS closures compared by identity; the model names each plain
listener by a numeric id, and represents the self-removing closure created
by `once(event, listener)` as `wrap id`. -/

/-- A registered listener: a plain callback, or the wrapper `once` builds
around one. -/
inductive EvListener where
  | plain (id : Nat)
  | wrap (id : Nat)
deriving DecidableEq

/-- The `_listeners` map, as an insertion-ordered association list of
per-event insertion-ordered unique-membership listener lists. -/
def Registry := List (String × List EvListener)

/-- The empty `_listeners` map built at construction. -/
def emptyRegistry : Registry := []

/-- `_listeners.get(event)` viewed as a list (`[]` when absent). -/
def getLs (reg : Registry) (e : String) : List EvListener :=
  match reg with
  | [] => []
  | (k, ls) :: rest => if k = e then ls else getLs rest e

/-- `on(event, listener)`: ensure the event's set exists, then `Set.add`
(append only when not already a member). -/
def onE (reg : Registry) (e : String) (l : EvListener) : Registry :=
  match reg with
  | [] => [(e, [l])]
  | (k, ls) :: rest =>
    if k = e then (k, if l ∈ ls then ls else ls ++ [l]) :: rest
    else (k, ls) :: onE rest e l

/-- `off(event, listener)`: `_listeners.get(event)?.delete(listener)` —
a no-op when the event has no entry. -/
def offE (reg : Registry) (e : String) (l : EvListener) : Registry :=
  match reg with
  | [] => []
  | (k, ls) :: rest =>
    if k = e then (k, ls.filter (· ≠ l)) :: rest
    else (k, ls) :: offE rest e l

/-- `once(event, listener)`: registers the self-removing wrapper via `on`. -/
def onceE (reg : Registry) (e : String) (n : Nat) : Registry :=
  onE reg e (.wrap n)

/-- `listenerCount(event)`: `_listeners.get(event)?.size ?? 0`. -/
def listenerCountE (reg : Registry) (e : String) : Nat :=
  (getLs reg e).length

/-- The body of `_emit`'s `forEach` over a snapshot of the event's listener
set: a listener deleted before being visited is skipped (JS `Set.forEach`
semantics); invoking `plain n` records `(n, args)`; invoking `wrap n`
records `(n, args)` and then removes the wrapper from the registry (the
wrapper body runs `listener(...args)` then `off(event, wrapper)`). -/
def emitGo (e : String) (args : List Value) :
    List EvListener → Registry → List (Nat × List Value) × Registry
  | [], reg => ([], reg)
  | l :: rest, reg =>
    if l ∈ getLs reg e then
      match l with
      | .plain n =>
        let out := emitGo e args rest reg
        ((n, args) :: out.1, out.2)
      | .wrap n =>
        let reg1 := offE reg e (.wrap n)
        let out := emitGo e args rest reg1
        ((n, args) :: out.1, out.2)
    else emitGo e args rest reg

/-- `emit(event, ...args)` / `_emit`: invoke every currently registered
listener for the event, returning the invocation log (underlying listener
id, arguments) and the registry afterwards. -/
def emitE (reg : Registry) (e : String) (args : List Value) :
    List (Nat × List Value) × Registry :=
  emitGo e args (getLs reg e) reg

/-! ### Concrete collaborator instances used in counterexamples and
witnesses -/

/-- A client whose chain id is `5`, with no account; its `request` rejects,
so any value locally computed provably never consulted it. -/
def clientChain5 : Client := ⟨some 5, none, fun _ _ => .error ⟨"unreachable"⟩⟩

/-- A client whose configured chain id is the (falsy) number `0`. -/
def clientChain0 : Client := ⟨some 0, none, fun _ _ => .error ⟨"unreachable"⟩⟩

/-- A client with chain id `5` and account address `0xabc`. -/
def clientAcc : Client := ⟨some 5, some "0xabc", fun _ _ => .error ⟨"unreachable"⟩⟩

/-- A client with no chain and no account whose `request` rejects with
message `boom` on every call. -/
def clientBoom : Client := ⟨none, none, fun _ _ => .error ⟨"boom"⟩⟩

/-- A portal that resolves every call with the array `["0xabc"]`. -/
def portalAbc : Portal := fun _ _ => .ok (.arr [.str "0xabc"])

/-- A portal that resolves every call with the string `"0x5"`. -/
def portalHex5 : Portal := fun _ _ => .ok (.str "0x5")

/-- A portal that rejects every call with message `boom`. -/
def portalBoom : Portal := fun _ _ => .error ⟨"boom"⟩

/-- A custom-handler table overriding the standard method
`eth_requestAccounts` with a handler resolving to `["0xabc"]`. -/
def customReqAcc : Handlers :=
  fun m =>
    if m = "eth_requestAccounts" then
      some (fun _ => .ok (.arr [.str "0xabc"]))
    else none

/-- A custom-handler table overriding the standard method `eth_chainId`
with a handler resolving to the string `"custom"`. -/
def customChain : Handlers :=
  fun m =>
    if m = "eth_chainId" then some (fun _ => .ok (.str "custom"))
    else none

/-- A custom-handler table whose handler for method `m1` rejects with
message `boom`. -/
def customBoom : Handlers :=
  fun m => if m = "m1" then some (fun _ => .error ⟨"boom"⟩) else none

end ViemInpage

namespace ViemInpage

/-! ## Theorems -/

/-- C3: for the client-backed provider, whenever a custom handler is
registered for a method, `request` invokes that handler with the (defaulted)
params and returns its result unchanged, leaving the provider state
untouched; the wrapped client is arbitrary and absent from the conclusion,
so neither the standard dispatch table nor the client is ever reached —
including when the method name coincides with a standard one. -/
theorem c3_custom_handler_precedence (client : Client) (custom : Handlers)
    (s : ProviderState) (m : String) (p : Option (List Value))
    (h : List Value → Except Err Value) (hc : custom m = some h) :
    Eip1193.request client custom s m p = (h (p.getD []), s) := by
  unfold Eip1193.request
  rw [hc]

/-- C3 witness: a custom handler registered under the standard name
`eth_chainId` shadows the standard computation on a client that would
locally answer `0x5`. -/
theorem c3_custom_handler_precedence_witness :
    Eip1193.request clientChain5 customChain initState "eth_chainId" none =
      (.ok (.str "custom"), initState) :=
  c3_custom_handler_precedence clientChain5 customChain initState
    "eth_chainId" none _ rfl

/-- C4 counterexample: with a configured chain id of `0` (a known chain, but
a falsy JS number), `eth_chainId` answers the fallback `"0x1"` instead of
the hex rendering `"0x0"` of the configured id, because the source guards
the hex path with JS truthiness of `chain?.id`. -/
theorem c4_counterexample :
    (Eip1193.request clientChain0 noCustom initState "eth_chainId" none).1 =
      .ok (.str "0x1") ∧
    "0x" ++ jsHexDigits 0 = "0x0" ∧
    (Eip1193.request clientChain0 noCustom initState "eth_chainId" none).1 ≠
      .ok (.str ("0x" ++ jsHexDigits 0)) := by
  refine ⟨rfl, rfl, ?_⟩
  intro h
  rw [show "0x" ++ jsHexDigits 0 = "0x0" from rfl] at h
  have h1 : Value.str "0x1" = Value.str "0x0" := by
    have := (Eip1193.request clientChain0 noCustom initState
      "eth_chainId" none).1
    injection (rfl.trans h :
      (Except.ok (Value.str "0x1") : Except Err Value) = .ok (.str "0x0"))
  injection h1 with h2
  exact absurd h2 (by decide)

/-- C4 amended: with no custom handler, each of the five standard methods is
computed locally — the collaborator's `request` function is universally
quantified and absent from every right-hand side — with `eth_chainId`
answering the `0x`-prefixed lowercase hex of the chain id, falling back to
`"0x1"` when the chain id is unknown **or equal to the falsy number 0**;
`eth_accounts` / `eth_coinbase` / `eth_requestAccounts` answering from the
account; and `net_version` answering the decimal string of the chain id
(also for 0), defaulting to `"1"`. -/
theorem c4_standard_dispatch_local (client : Client) (s : ProviderState) :
    (client.chain = none →
      Eip1193.request client noCustom s "eth_chainId" none =
        (.ok (.str "0x1"), s)) ∧
    (∀ cid, client.chain = some cid → cid ≠ 0 →
      Eip1193.request client noCustom s "eth_chainId" none =
        (.ok (.str ("0x" ++ jsHexDigits cid)), s)) ∧
    (client.chain = some 0 →
      Eip1193.request client noCustom s "eth_chainId" none =
        (.ok (.str "0x1"), s)) ∧
    (client.account = none →
      Eip1193.request client noCustom s "eth_accounts" none =
        (.ok (.arr []), s)) ∧
    (∀ a, client.account = some a →
      Eip1193.request client noCustom s "eth_accounts" none =
        (.ok (.arr [.str a]), s)) ∧
    (client.account = none →
      Eip1193.request client noCustom s "eth_coinbase" none =
        (.ok .nullV, s)) ∧
    (∀ a, client.account = some a →
      Eip1193.request client noCustom s "eth_coinbase" none =
        (.ok (.str a), s)) ∧
    (client.account = none →
      Eip1193.request client noCustom s "eth_requestAccounts" none =
        (.ok (.arr []), s)) ∧
    (∀ a, client.account = some a →
      Eip1193.request client noCustom s "eth_requestAccounts" none =
        (.ok (.arr [.str a]),
         { s with isConnectedPriv := true, connected := true,
                  selectedAddress := some (.str a) })) ∧
    (client.chain = none →
      Eip1193.request client noCustom s "net_version" none =
        (.ok (.str "1"), s)) ∧
    (∀ cid, client.chain = some cid →
      Eip1193.request client noCustom s "net_version" none =
        (.ok (.str (toString cid)), s)) := by
  refine ⟨?_, ?_, ?_, ?_, ?_, ?_, ?_, ?_, ?_, ?_, ?_⟩ <;>
    first
    | (intro x hc hne; simp [Eip1193.request, noCustom, hc, hne])
    | (intro x hc; simp [Eip1193.request, noCustom, hc])
    | (intro hc; simp [Eip1193.request, noCustom, hc])

/-- C4 witness: the amended dispatch rules evaluated at concrete clients —
chain 5 with account `0xabc`, chain 0, and a chainless accountless client. -/
theorem c4_standard_dispatch_local_witness :
    Eip1193.request clientAcc noCustom initState "eth_chainId" none =
      (.ok (.str ("0x" ++ jsHexDigits 5)), initState) ∧
    Eip1193.request clientChain0 noCustom initState "eth_chainId" none =
      (.ok (.str "0x1"), initState) ∧
    Eip1193.request clientBoom noCustom initState "eth_chainId" none =
      (.ok (.str "0x1"), initState) ∧
    Eip1193.request clientAcc noCustom initState "eth_accounts" none =
      (.ok (.arr [.str "0xabc"]), initState) ∧
    Eip1193.request clientBoom noCustom initState "eth_accounts" none =
      (.ok (.arr []), initState) ∧
    Eip1193.request clientAcc noCustom initState "eth_coinbase" none =
      (.ok (.str "0xabc"), initState) ∧
    Eip1193.request clientBoom noCustom initState "eth_coinbase" none =
      (.ok .nullV, initState) ∧
    Eip1193.request clientAcc noCustom initState "eth_requestAccounts" none =
      (.ok (.arr [.str "0xabc"]),
       { initState with isConnectedPriv := true, connected := true,
                        selectedAddress := some (.str "0xabc") }) ∧
    Eip1193.request clientBoom noCustom initState "eth_requestAccounts" none =
      (.ok (.arr []), initState) ∧
    Eip1193.request clientAcc noCustom initState "net_version" none =
      (.ok (.str (toString 5)), initState) ∧
    Eip1193.request clientBoom noCustom initState "net_version" none =
      (.ok (.str "1"), initState) := by
  refine ⟨(c4_standard_dispatch_local clientAcc initState).2.1 5 rfl (by decide),
    (c4_standard_dispatch_local clientChain0 initState).2.2.1 rfl,
    (c4_standard_dispatch_local clientBoom initState).1 rfl,
    (c4_standard_dispatch_local clientAcc initState).2.2.2.2.1 "0xabc" rfl,
    (c4_standard_dispatch_local clientBoom initState).2.2.2.1 rfl,
    (c4_standard_dispatch_local clientAcc initState).2.2.2.2.2.2.1 "0xabc" rfl,
    (c4_standard_dispatch_local clientBoom initState).2.2.2.2.2.1 rfl,
    (c4_standard_dispatch_local clientAcc
      initState).2.2.2.2.2.2.2.2.1 "0xabc" rfl,
    (c4_standard_dispatch_local clientBoom initState).2.2.2.2.2.2.2.1 rfl,
    (c4_standard_dispatch_local clientAcc
      initState).2.2.2.2.2.2.2.2.2.2 5 rfl,
    (c4_standard_dispatch_local clientBoom
      initState).2.2.2.2.2.2.2.2.2.1 rfl⟩

/-- C1 counterexample: on the client-backed `Eip1193Provider` (chain id 5,
no custom handlers, fresh state), `request({method: "eth_chainId"})`
resolves with the string `"0x5"`, yet `chainId` stays unset (≠ `some
"0x5"`) and `networkVersion` stays `"1"` (≠ `"5"`): the client-backed
variant performs no state update on `eth_chainId`. -/
theorem c1_counterexample :
    (Eip1193.request clientChain5 noCustom initState "eth_chainId" none).1 =
      .ok (.str "0x5") ∧
    (Eip1193.request clientChain5 noCustom initState
        "eth_chainId" none).2.chainId = none ∧
    (Eip1193.request clientChain5 noCustom initState
        "eth_chainId" none).2.networkVersion = "1" ∧
    (none : Option String) ≠ some "0x5" ∧ "1" ≠ "5" :=
  ⟨rfl, rfl, rfl, by simp, by decide⟩

/-- C1 amended: only the portal-backed `InpageProvider` caches the chain id
— when the forwarded `eth_chainId` call resolves with a string `r`, the
post state has `chainId = r` and `networkVersion = parseInt(r, 16)
.toString()`; the client-backed `Eip1193Provider` leaves its state
(including `chainId` and `networkVersion`) unchanged by any `eth_chainId`
request. -/
theorem c1_chainId_state_update (portal : Portal) (s : ProviderState)
    (p : Option (List Value)) (r : String)
    (hp : portal "eth_chainId" p = .ok (.str r)) :
    Inpage.request portal s "eth_chainId" p =
      (.ok (.str r),
       { s with chainId := some r,
                networkVersion := jsParseIntHexToString r }) ∧
    ∀ (client : Client) (custom : Handlers) (s0 : ProviderState)
      (q : Option (List Value)),
      (Eip1193.request client custom s0 "eth_chainId" q).2 = s0 := by
  constructor
  · simp [Inpage.request, hp]
  · intro client custom s0 q
    unfold Eip1193.request
    cases hc : custom "eth_chainId" <;> simp [hc]

/-- C1 witness: a portal answering `"0x5"` yields `chainId = "0x5"` and
`networkVersion = "5"`; a client-backed request on chain 5 leaves the fresh
state untouched. -/
theorem c1_chainId_state_update_witness :
    Inpage.request portalHex5 initState "eth_chainId" none =
      (.ok (.str "0x5"),
       { initState with chainId := some "0x5",
                        networkVersion := jsParseIntHexToString "0x5" }) ∧
    (Eip1193.request clientChain5 noCustom initState
        "eth_chainId" none).2 = initState :=
  ⟨(c1_chainId_state_update portalHex5 initState none "0x5" rfl).1,
   (c1_chainId_state_update portalHex5 initState none "0x5" rfl).2
     clientChain5 noCustom initState none⟩

/-- C2 counterexample: the inbound `disconnect` push does not emit
`disconnect` with no arguments — the source executes
`this._emit("disconnect", [])`, so the second emission carries a single
empty-array argument. -/
theorem c2_counterexample :
    (Inpage.disconnectPush initState).2 ≠
      [("accountsChanged", [Value.arr []]),
       ("disconnect", ([] : List Value))] := by
  simp [Inpage.disconnectPush]

/-- C2 amended: for the portal-backed provider in any state, the inbound
`disconnect` push unsets `selectedAddress`, makes `isConnected()` return
`false`, and performs exactly two emissions to local listeners:
`accountsChanged` with the empty array, and `disconnect` **with a single
empty-array argument** (not with no arguments). -/
theorem c2_disconnect_push (s : ProviderState) :
    (Inpage.disconnectPush s).1.selectedAddress = none ∧
    (Inpage.disconnectPush s).1.isConnected = false ∧
    (Inpage.disconnectPush s).2 =
      [("accountsChanged", [Value.arr []]),
       ("disconnect", [Value.arr []])] :=
  ⟨rfl, rfl, rfl⟩

/-- C10: the `disconnect` push handler writes only `selectedAddress` and
the private `_isConnected` flag backing `isConnected()`; the public
`connected` property (as well as `chainId` and `networkVersion`) is left
unchanged — so after `eth_requestAccounts` resolves with `["0xabc"]`
(setting `connected = true`) followed by an inbound `disconnect` push,
`isConnected()` is `false` while `connected` still holds `true`. -/
theorem c10_disconnect_push_frame (s : ProviderState) :
    (Inpage.disconnectPush s).1.selectedAddress = none ∧
    (Inpage.disconnectPush s).1.isConnectedPriv = false ∧
    (Inpage.disconnectPush s).1.connected = s.connected ∧
    (Inpage.disconnectPush s).1.chainId = s.chainId ∧
    (Inpage.disconnectPush s).1.networkVersion = s.networkVersion ∧
    (Inpage.disconnectPush s).1.isRainbow = s.isRainbow ∧
    (Inpage.disconnectPush s).1.isReady = s.isReady ∧
    (Inpage.disconnectPush s).1.isMetaMask = s.isMetaMask ∧
    ((Inpage.disconnectPush
        (Inpage.request portalAbc initState
          "eth_requestAccounts" none).2).1.isConnected = false ∧
     (Inpage.disconnectPush
        (Inpage.request portalAbc initState
          "eth_requestAccounts" none).2).1.connected = true) :=
  ⟨rfl, rfl, rfl, rfl, rfl, rfl, rfl, rfl, rfl, rfl⟩

/-- C5 counterexample: on the client-backed provider, a custom handler
registered for `eth_requestAccounts` makes `request` resolve with
`["0xabc"]` while bypassing every state update: afterwards
`selectedAddress` is still unset and `isConnected()` is still `false`,
refuting the claim for this variant. -/
theorem c5_counterexample :
    (Eip1193.request clientChain5 customReqAcc initState
        "eth_requestAccounts" none).1 = .ok (.arr [.str "0xabc"]) ∧
    (Eip1193.request clientChain5 customReqAcc initState
        "eth_requestAccounts" none).2.selectedAddress = none ∧
    (Eip1193.request clientChain5 customReqAcc initState
        "eth_requestAccounts" none).2.isConnected = false ∧
    (none : Option Value) ≠ some (.str "0xabc") ∧ false ≠ true :=
  ⟨rfl, rfl, rfl, by simp, by decide⟩

/-- C5 amended: after `request({method: "eth_requestAccounts"})` resolves
with `["0xabc"]`, `selectedAddress = "0xabc"` and `isConnected()` is `true`
— unconditionally for the portal-backed provider, and for the client-backed
provider **provided no custom handler is registered for
`eth_requestAccounts`** (a custom handler bypasses the state update). -/
theorem c5_requestAccounts_connects (portal : Portal) (client : Client)
    (custom : Handlers) (s t : ProviderState)
    (p q : Option (List Value)) :
    (∀ s', Inpage.request portal s "eth_requestAccounts" p =
        (.ok (.arr [.str "0xabc"]), s') →
      s'.selectedAddress = some (.str "0xabc") ∧ s'.isConnected = true) ∧
    (custom "eth_requestAccounts" = none →
      ∀ t', Eip1193.request client custom t "eth_requestAccounts" q =
        (.ok (.arr [.str "0xabc"]), t') →
      t'.selectedAddress = some (.str "0xabc") ∧ t'.isConnected = true) := by
  constructor
  · intro s' hreq
    unfold Inpage.request at hreq
    cases hp : portal "eth_requestAccounts" p with
    | error e => rw [hp] at hreq; simp at hreq
    | ok v =>
      rw [hp] at hreq
      cases v with
      | str a => simp at hreq
      | num n => simp at hreq
      | nullV => simp at hreq
      | arr xs =>
        simp at hreq
        obtain ⟨hxs, hs⟩ := hreq
        subst hxs
        rw [← hs]
        exact ⟨rfl, rfl⟩
  · intro hc t' hreq
    unfold Eip1193.request at hreq
    rw [hc] at hreq
    cases ha : client.account with
    | none => rw [ha] at hreq; simp at hreq
    | some a =>
      rw [ha] at hreq
      simp at hreq
      obtain ⟨haddr, hs⟩ := hreq
      subst haddr
      rw [← hs]
      exact ⟨rfl, rfl⟩

/-- C5 witness: a portal resolving `["0xabc"]` and a client whose account is
`0xabc` (no custom handlers) both end connected with `selectedAddress =
"0xabc"`. -/
theorem c5_requestAccounts_connects_witness :
    ((Inpage.request portalAbc initState
        "eth_requestAccounts" none).2.selectedAddress =
          some (.str "0xabc") ∧
     (Inpage.request portalAbc initState
        "eth_requestAccounts" none).2.isConnected = true) ∧
    ((Eip1193.request clientAcc noCustom initState
        "eth_requestAccounts" none).2.selectedAddress =
          some (.str "0xabc") ∧
     (Eip1193.request clientAcc noCustom initState
        "eth_requestAccounts" none).2.isConnected = true) :=
  ⟨(c5_requestAccounts_connects portalAbc clientAcc noCustom initState
      initState none none).1 _ rfl,
   (c5_requestAccounts_connects portalAbc clientAcc noCustom initState
      initState none none).2 rfl _ rfl⟩

/-- C6: `sendAsync` on both variants is total (the model returns the single
callback invocation instead of ever throwing): when the underlying
`request` resolves, the callback receives `(null, {id: payload.id ?? 1,
jsonrpc: "2.0", result})`; when it rejects with error `e`, the callback
receives `(e, {id: payload.id ?? 1, jsonrpc: "2.0", error: {code: -32000,
message: e.message}})` — fixed code `-32000`, original message. -/
theorem c6_sendAsync_callback (client : Client) (custom : Handlers)
    (portal : Portal) (s t : ProviderState) (payload q : JsonRpcRequestV) :
    (∀ r s', Eip1193.request client custom s payload.method payload.params =
        (.ok r, s') →
      Eip1193.sendAsync client custom s payload =
        ((none, ⟨payload.id.getD (.num 1), "2.0", some r, none⟩), s')) ∧
    (∀ e s', Eip1193.request client custom s payload.method payload.params =
        (.error e, s') →
      Eip1193.sendAsync client custom s payload =
        ((some e, ⟨payload.id.getD (.num 1), "2.0", none,
          some ⟨-32000, e.message⟩⟩), s')) ∧
    (∀ r s', Inpage.request portal t q.method q.params = (.ok r, s') →
      Inpage.sendAsync portal t q =
        ((none, ⟨q.id.getD (.num 1), "2.0", some r, none⟩), s')) ∧
    (∀ e s', Inpage.request portal t q.method q.params = (.error e, s') →
      Inpage.sendAsync portal t q =
        ((some e, ⟨q.id.getD (.num 1), "2.0", none,
          some ⟨-32000, e.message⟩⟩), s')) := by
  refine ⟨?_, ?_, ?_, ?_⟩ <;> intro x s' h <;>
    first
      | (unfold Eip1193.sendAsync; rw [h])
      | (unfold Inpage.sendAsync; rw [h])

/-- C6 witness: concrete success and failure on both variants — local
`eth_chainId` success and a rejecting custom handler on the client-backed
provider; a resolving and a `boom`-rejecting portal on the portal-backed
provider, with `payload.id = 5` and a payload without id defaulting to 1. -/
theorem c6_sendAsync_callback_witness :
    Eip1193.sendAsync clientChain5 noCustom initState
        ⟨some (.num 5), "eth_chainId", none⟩ =
      ((none, ⟨.num 5, "2.0", some (.str "0x5"), none⟩), initState) ∧
    Eip1193.sendAsync clientChain5 customBoom initState
        ⟨some (.num 5), "m1", none⟩ =
      ((some ⟨"boom"⟩, ⟨.num 5, "2.0", none, some ⟨-32000, "boom"⟩⟩),
       initState) ∧
    Inpage.sendAsync portalHex5 initState
        ⟨some (.num 5), "eth_chainId", none⟩ =
      ((none, ⟨.num 5, "2.0", some (.str "0x5"), none⟩),
       { initState with chainId := some "0x5", networkVersion := "5" }) ∧
    Inpage.sendAsync portalBoom initState ⟨none, "eth_chainId", none⟩ =
      ((some ⟨"boom"⟩, ⟨.num 1, "2.0", none, some ⟨-32000, "boom"⟩⟩),
       initState) :=
  ⟨(c6_sendAsync_callback clientChain5 noCustom portalHex5 initState
      initState ⟨some (.num 5), "eth_chainId", none⟩
      ⟨some (.num 5), "eth_chainId", none⟩).1 (.str "0x5") initState rfl,
   (c6_sendAsync_callback clientChain5 customBoom portalHex5 initState
      initState ⟨some (.num 5), "m1", none⟩
      ⟨some (.num 5), "m1", none⟩).2.1 ⟨"boom"⟩ initState rfl,
   (c6_sendAsync_callback clientChain5 noCustom portalHex5 initState
      initState ⟨some (.num 5), "eth_chainId", none⟩
      ⟨some (.num 5), "eth_chainId", none⟩).2.2.1 (.str "0x5") _ rfl,
   (c6_sendAsync_callback clientChain5 noCustom portalBoom initState
      initState ⟨none, "eth_chainId", none⟩
      ⟨none, "eth_chainId", none⟩).2.2.2 ⟨"boom"⟩ initState rfl⟩

/-- C7: rejections pass through unchanged on every path — a rejecting
custom handler, a rejecting forwarded client call (non-standard method), a
rejecting portal call, and `enable` on both variants all surface the very
same error value, with the provider state untouched (no retry, no
transformation). -/
theorem c7_error_propagation (client : Client) (custom : Handlers)
    (portal : Portal) (s : ProviderState) (m : String)
    (p : Option (List Value)) (e : Err) :
    (∀ h, custom m = some h → h (p.getD []) = .error e →
      Eip1193.request client custom s m p = (.error e, s)) ∧
    (custom m = none →
      m ≠ "eth_chainId" → m ≠ "eth_accounts" → m ≠ "eth_coinbase" →
      m ≠ "eth_requestAccounts" → m ≠ "net_version" →
      client.request m (p.getD []) = .error e →
      Eip1193.request client custom s m p = (.error e, s)) ∧
    (portal m p = .error e → Inpage.request portal s m p = (.error e, s)) ∧
    (∀ h, custom "eth_requestAccounts" = some h → h [] = .error e →
      Eip1193.enable client custom s = (.error e, s)) ∧
    (portal "eth_requestAccounts" none = .error e →
      Inpage.enable portal s = (.error e, s)) := by
  refine ⟨?_, ?_, ?_, ?_, ?_⟩
  · intro h hc he
    simp [Eip1193.request, hc, he]
  · intro hc h1 h2 h3 h4 h5 hr
    simp [Eip1193.request, hc, h1, h2, h3, h4, h5, hr]
  · intro hp
    simp [Inpage.request, hp]
  · intro h hc he
    simp [Eip1193.enable, Eip1193.request, hc, he]
  · intro hp
    simp [Inpage.enable, Inpage.request, hp]

/-- C7 witness: a custom handler rejecting with `boom`, a client whose
forwarded `eth_getBalance` rejects with `boom`, a portal rejecting with
`boom`, and `enable` over a rejecting handler and a rejecting portal — all
five surface exactly `boom` and leave the fresh state unchanged. -/
theorem c7_error_propagation_witness :
    Eip1193.request clientChain5 customBoom initState "m1" none =
      (.error ⟨"boom"⟩, initState) ∧
    Eip1193.request clientBoom noCustom initState "eth_getBalance" none =
      (.error ⟨"boom"⟩, initState) ∧
    Inpage.request portalBoom initState "eth_chainId" none =
      (.error ⟨"boom"⟩, initState) ∧
    Eip1193.enable clientChain5
        (fun m => if m = "eth_requestAccounts" then
          some (fun _ => .error ⟨"boom"⟩) else none) initState =
      (.error ⟨"boom"⟩, initState) ∧
    Inpage.enable portalBoom initState = (.error ⟨"boom"⟩, initState) :=
  ⟨(c7_error_propagation clientChain5 customBoom portalBoom initState
      "m1" none ⟨"boom"⟩).1 _ rfl rfl,
   (c7_error_propagation clientBoom noCustom portalBoom initState
      "eth_getBalance" none ⟨"boom"⟩).2.1 rfl (by decide) (by decide)
      (by decide) (by decide) (by decide) rfl,
   (c7_error_propagation clientChain5 noCustom portalBoom initState
      "eth_chainId" none ⟨"boom"⟩).2.2.1 rfl,
   (c7_error_propagation clientChain5
      (fun m => if m = "eth_requestAccounts" then
        some (fun _ => .error ⟨"boom"⟩) else none)
      portalBoom initState "m1" none ⟨"boom"⟩).2.2.2.1 _ rfl rfl,
   (c7_error_propagation clientChain5 noCustom portalBoom initState
      "m1" none ⟨"boom"⟩).2.2.2.2 rfl⟩

/-- C8: for every event name, listener and argument lists, registering the
listener via `once` on a fresh registry and then emitting the event twice
invokes the listener exactly once (the wrapper fires on the first emission,
removing itself inside its own invocation — before the `forEach` of that
emission finishes — so the second emission delivers nothing), and
`listenerCount(event)` is `0` afterwards. -/
theorem c8_once_single_invocation (e : String) (n : Nat)
    (a1 a2 : List Value) :
    (emitE (onceE emptyRegistry e n) e a1).1 = [(n, a1)] ∧
    (emitE (emitE (onceE emptyRegistry e n) e a1).2 e a2).1 = [] ∧
    listenerCountE
      (emitE (emitE (onceE emptyRegistry e n) e a1).2 e a2).2 e = 0 := by
  refine ⟨?_, ?_, ?_⟩ <;>
    simp [onceE, onE, emptyRegistry, emitE, emitGo, getLs, offE,
      listenerCountE]

/-- C9: `on` is idempotent per listener identity on any registry — adding
the same reference twice equals adding it once, because membership is a
set — and after a double registration on a fresh registry a single emit
delivers exactly one invocation and `listenerCount(event)` is `1`. -/
theorem c9_on_idempotent (reg : Registry) (e : String) (l : EvListener)
    (n : Nat) (args : List Value) :
    onE (onE reg e l) e l = onE reg e l ∧
    (emitE (onE (onE emptyRegistry e (.plain n)) e (.plain n)) e args).1 =
      [(n, args)] ∧
    listenerCountE (onE (onE emptyRegistry e (.plain n)) e (.plain n)) e
      = 1 := by
  refine ⟨?_, ?_, ?_⟩
  · induction reg with
    | nil => simp [onE]
    | cons kv rest ih =>
      obtain ⟨k, ls⟩ := kv
      by_cases hk : k = e
      · subst hk
        by_cases hl : l ∈ ls <;> simp [onE, hl]
      · simp [onE, hk, ih]
  · simp [emptyRegistry, onE, emitE, getLs, emitGo]
  · simp [emptyRegistry, onE, listenerCountE, getLs]

end ViemInpage
